import Mathlib

/-!
Shallow embedding of the Tuning Companion core (src/logic/filters.py and
src/logic/curves.py): the filter response library, the filter configuration
value type, the house curve registry and the curve generator.

Curve samples and frequencies are real numbers (the source uses floats);
cutoffs and point-edit values are kept as rationals where the source only
stores and compares them, so that guards remain decidable.  Python's floor
division `//` on integers is `Int.fdiv`.
-/

namespace TuningCompanion

/-- Error kinds of the core, naming the spec's error vocabulary.  In the
source all of these are raised as `ValueError` / `KeyError` / `IndexError`
with a message; the constructor argument records the offending datum. -/
inductive CurveError where
  | invalidFilterFamily (family : String)
  | unknownCurveName (name : String)
  | notCustom (name : String)
  | indexOutOfRange (idx : ℤ)
deriving DecidableEq, Repr

/-- `FilterConfig` from `logic/filters.py`: a plain container holding the
filter family string, the slope in dB/oct and the cutoff frequency. -/
structure FilterConfig where
  filter_type : String
  slope : ℤ
  cutoff : ℚ
deriving DecidableEq, Repr

/-- The constructor of `FilterConfig` (`FilterConfig.__init__`): the source
stores the three attributes as given and performs no validation, so
construction always succeeds. -/
def mkFilterConfig (filter_type : String) (slope : ℤ) (cutoff : ℚ) :
    Except CurveError FilterConfig :=
  .ok ⟨filter_type, slope, cutoff⟩

/-- `FILTER_TYPES` from `logic/filters.py`: the central list of family
names used by the UI dropdowns and the application logic. -/
def FILTER_TYPES : List String :=
  ["None", "Butterworth", "Linkwitz-Riley", "Bessel", "Chebyshev"]

/-- `FREQUENCIES` from `logic/curves.py`: the standard 1/3-octave
frequency grid (Hz), 31 entries. -/
noncomputable def FREQUENCIES : List ℝ :=
  [20, 25, 31.5, 40, 50, 63, 80, 100, 125, 160,
   200, 250, 315, 400, 500, 630, 800, 1000, 1250,
   1600, 2000, 2500, 3150, 4000, 5000, 6300, 8000,
   10000, 12500, 16000, 20000]

/-- `_DEFAULT_HOUSE_CURVE` from `logic/curves.py`: the predefined house
curve in dB, index-aligned with `FREQUENCIES`. -/
noncomputable def defaultHouseCurve : List ℝ :=
  [24, 22, 20, 16, 11, 8, 6, 4, 3, 1.5,
   0.5, 0, -1, -2, -2.3, -2.5, -2.5, -3, -3.3, -3.6,
   -4, -4.5, -5, -5.5, -6, -6.8, -7.5, -8, -8.8, -9.5,
   -10]

/-- The module-level mutable state of `logic/curves.py`: the predefined
curve dictionary `HOUSE_CURVES`, the editable dictionary `CUSTOM_CURVES`
and the selection pointer `_selected_curve_name`.  Dictionaries are
association lists keyed by curve name. -/
structure RegistryState where
  house : List (String × List ℝ)
  custom : List (String × List ℝ)
  selected : String

/-- The state at module load: one predefined curve, three all-zero custom
curves, selection pointing at the predefined curve. -/
noncomputable def initialState : RegistryState where
  house := [("House Curve", defaultHouseCurve)]
  custom := [("Custom1", List.replicate 31 0),
             ("Custom2", List.replicate 31 0),
             ("Custom3", List.replicate 31 0)]
  selected := "House Curve"

/-- `get_selected_house_curve` from `logic/curves.py`: returns the curve
for the selection pointer, resolving in `HOUSE_CURVES` first and then in
`CUSTOM_CURVES`; a pointer found in neither raises (`KeyError`). -/
def get_selected_house_curve (st : RegistryState) : Except CurveError (List ℝ) :=
  match st.house.lookup st.selected with
  | some c => .ok c
  | none =>
    match st.custom.lookup st.selected with
    | some c => .ok c
    | none => .error (.unknownCurveName st.selected)

/-- `set_selected_house_curve` from `logic/curves.py`: updates the pointer
when the name exists in either dictionary, otherwise raises. -/
def set_selected_house_curve (name : String) (st : RegistryState) :
    Except CurveError RegistryState :=
  if (st.house.lookup name).isSome ∨ (st.custom.lookup name).isSome then
    .ok { st with selected := name }
  else
    .error (.unknownCurveName name)

/-- `reset_custom_curves` from `logic/curves.py`: fills every custom
curve with 0.0 in place (`arr.fill(0.0)` keeps the length). -/
def reset_custom_curves (st : RegistryState) : RegistryState :=
  { st with custom := st.custom.map (fun p => (p.1, p.2.map (fun _ => (0 : ℝ)))) }

/-- `update_custom_curve` from `logic/curves.py`: raises when the name is
not a custom curve; otherwise performs the numpy element assignment
`CUSTOM_CURVES[name][idx] = value`, which accepts any index in
`[-len, len)` (a negative index wraps by `+ len`, Python style) and
raises `IndexError` outside that range. -/
def update_custom_curve (idx : ℤ) (name : String) (value : ℝ)
    (st : RegistryState) : Except CurveError RegistryState :=
  match st.custom.lookup name with
  | none => .error (.notCustom name)
  | some arr =>
    if idx < -(arr.length : ℤ) ∨ (arr.length : ℤ) ≤ idx then
      .error (.indexOutOfRange idx)
    else
      let j : ℕ := (if idx < 0 then idx + arr.length else idx).toNat
      .ok { st with
        custom := st.custom.map (fun p => if p.1 = name then (p.1, p.2.set j value) else p) }

/-- `load_custom_curve` from `logic/curves.py`: raises when the name is
not a custom curve; otherwise replaces that custom curve with a copy of
the currently selected curve. -/
def load_custom_curve (name : String) (st : RegistryState) :
    Except CurveError RegistryState :=
  if (st.custom.lookup name).isNone then
    .error (.notCustom name)
  else
    match get_selected_house_curve st with
    | .error e => .error e
    | .ok cur =>
      .ok { st with custom := st.custom.map (fun p => if p.1 = name then (p.1, cur) else p) }

/-- `butterworth_lp_mag` from `logic/filters.py`: order
`n = max(1, slope // 6)`, magnitude `1 / sqrt(1 + (f/f_c)^(2n))`. -/
noncomputable def butterworth_lp_mag (f f_c : ℝ) (slope : ℤ) : ℝ :=
  let n : ℤ := max 1 (Int.fdiv slope 6)
  1 / Real.sqrt (1 + (f / f_c) ^ (2 * n).toNat)

/-- `butterworth_hp_mag` from `logic/filters.py`: order
`n = max(1, slope // 6)`, magnitude `1 / sqrt(1 + (f_c/f)^(2n))`. -/
noncomputable def butterworth_hp_mag (f f_c : ℝ) (slope : ℤ) : ℝ :=
  let n : ℤ := max 1 (Int.fdiv slope 6)
  1 / Real.sqrt (1 + (f_c / f) ^ (2 * n).toNat)

/-- `linkwitz_riley_lp_mag` from `logic/filters.py`: two cascaded
Butterworth stages of order `n = max(1, slope // 12)`, each evaluated at
slope `n * 6`; magnitude is the square of the stage magnitude. -/
noncomputable def linkwitz_riley_lp_mag (f f_c : ℝ) (slope : ℤ) : ℝ :=
  let n : ℤ := max 1 (Int.fdiv slope 12)
  let H_bw := butterworth_lp_mag f f_c (n * 6)
  H_bw ^ 2

/-- `linkwitz_riley_hp_mag` from `logic/filters.py`: high-pass analogue of
`linkwitz_riley_lp_mag`. -/
noncomputable def linkwitz_riley_hp_mag (f f_c : ℝ) (slope : ℤ) : ℝ :=
  let n : ℤ := max 1 (Int.fdiv slope 12)
  let H_bw := butterworth_hp_mag f f_c (n * 6)
  H_bw ^ 2

/-- Modelled from the spec: `bessel_mag` in `logic/filters.py` delegates
the numeric response to `scipy.signal.bessel` / `scipy.signal.freqs`,
external library code that is not part of this repository.  None of the
verified claims depends on its value, only on the function being total,
so the response is modelled abstractly as the constant 1. -/
def bessel_mag (_f _f_c : ℝ) (_slope : ℤ) (_btype : String) : ℝ := 1

/-- Modelled from the spec: `chebyshev1_mag` in `logic/filters.py`
delegates the numeric response to `scipy.signal.cheby1` /
`scipy.signal.freqs`, external library code that is not part of this
repository.  None of the verified claims depends on its value, only on
the function being total, so the response is modelled abstractly as the
constant 1. -/
def chebyshev1_mag (_f _f_c : ℝ) (_slope : ℤ) (_btype : String) (_rp : ℚ) : ℝ := 1

/-- Family dispatch shared by `apply_hp_filter` and `apply_lp_filter`:
the magnitude vector for a recognized family, `none` for the final
`raise ValueError` branch.  `hp` selects the high-pass forms. -/
noncomputable def filter_response (freq : List ℝ) (cutoff : ℝ)
    (filter_type : String) (slope : ℤ) (hp : Bool) : Option (List ℝ) :=
  if filter_type = "Linkwitz-Riley" then
    some (freq.map (fun f =>
      if hp then linkwitz_riley_hp_mag f cutoff slope else linkwitz_riley_lp_mag f cutoff slope))
  else if filter_type = "Butterworth" then
    some (freq.map (fun f =>
      if hp then butterworth_hp_mag f cutoff slope else butterworth_lp_mag f cutoff slope))
  else if filter_type = "Bessel" then
    some (freq.map (fun f => bessel_mag f cutoff slope (if hp then "high" else "low")))
  else if filter_type = "Chebyshev" then
    some (freq.map (fun f => chebyshev1_mag f cutoff slope (if hp then "high" else "low") 1))
  else
    none

/-- `apply_hp_filter` from `logic/filters.py`: pass-through when the
family is `'None'` or the cutoff is ≤ 0; otherwise add the response in
dB (`curve + 20·log10(H)`) elementwise, or raise on an unknown family. -/
noncomputable def apply_hp_filter (curve_db freq : List ℝ) (cutoff : ℚ)
    (filter_type : String) (slope : ℤ) : Except CurveError (List ℝ) :=
  if filter_type = "None" ∨ cutoff ≤ 0 then .ok curve_db
  else
    match filter_response freq (cutoff : ℝ) filter_type slope true with
    | none => .error (.invalidFilterFamily filter_type)
    | some H =>
      let H_db := H.map (fun h => 20 * Real.logb 10 h)
      .ok (List.zipWith (· + ·) curve_db H_db)

/-- `apply_lp_filter` from `logic/filters.py`: low-pass analogue of
`apply_hp_filter`. -/
noncomputable def apply_lp_filter (curve_db freq : List ℝ) (cutoff : ℚ)
    (filter_type : String) (slope : ℤ) : Except CurveError (List ℝ) :=
  if filter_type = "None" ∨ cutoff ≤ 0 then .ok curve_db
  else
    match filter_response freq (cutoff : ℝ) filter_type slope false with
    | none => .error (.invalidFilterFamily filter_type)
    | some H =>
      let H_db := H.map (fun h => 20 * Real.logb 10 h)
      .ok (List.zipWith (· + ·) curve_db H_db)

/-- `generate_target_curve` from `logic/curves.py`: start from a copy of
the selected house curve, apply the high-pass stage unless its family is
`'None'`, then the low-pass stage likewise. -/
noncomputable def generate_target_curve (st : RegistryState)
    (hp_cfg lp_cfg : FilterConfig) : Except CurveError (List ℝ) := do
  let curve ← get_selected_house_curve st
  let curve ←
    if hp_cfg.filter_type ≠ "None" then
      apply_hp_filter curve FREQUENCIES hp_cfg.cutoff hp_cfg.filter_type hp_cfg.slope
    else
      pure curve
  let curve ←
    if lp_cfg.filter_type ≠ "None" then
      apply_lp_filter curve FREQUENCIES lp_cfg.cutoff lp_cfg.filter_type lp_cfg.slope
    else
      pure curve
  return curve

/-- The registry mutations a caller can issue (`set_selected_house_curve`,
`update_custom_curve`, `load_custom_curve`, `reset_custom_curves`). -/
inductive RegistryOp where
  | setSelected (name : String)
  | updatePoint (idx : ℤ) (name : String) (value : ℝ)
  | loadFromSelected (name : String)
  | resetCustom

/-- Run one registry operation.  A raising operation leaves the module
state as it was (each source function raises before mutating anything). -/
def runOp (st : RegistryState) (op : RegistryOp) : RegistryState :=
  match op with
  | .setSelected name =>
    match set_selected_house_curve name st with
    | .ok st' => st'
    | .error _ => st
  | .updatePoint idx name value =>
    match update_custom_curve idx name value st with
    | .ok st' => st'
    | .error _ => st
  | .loadFromSelected name =>
    match load_custom_curve name st with
    | .ok st' => st'
    | .error _ => st
  | .resetCustom => reset_custom_curves st

/-- Registry well-formedness: the selection pointer resolves in one of the
two dictionaries and every stored curve has the grid's 31 samples. -/
def validState (st : RegistryState) : Prop :=
  ((st.house.lookup st.selected).isSome ∨ (st.custom.lookup st.selected).isSome)
  ∧ (∀ p ∈ st.house, p.2.length = 31)
  ∧ (∀ p ∈ st.custom, p.2.length = 31)

theorem lookup_map_value (l : List (String × List ℝ)) (g : List ℝ → List ℝ)
    (k : String) :
    (l.map (fun p => (p.1, g p.2))).lookup k = (l.lookup k).map g := by
  induction l with
  | nil => rfl
  | cons a t ih =>
    obtain ⟨k', v⟩ := a
    simp only [List.map, List.lookup]
    cases h : k == k' <;> simp [h, ih]

theorem lookup_isSome_map (l : List (String × List ℝ))
    (f : String × List ℝ → String × List ℝ) (hf : ∀ p, (f p).1 = p.1)
    (k : String) :
    ((l.map f).lookup k).isSome = (l.lookup k).isSome := by
  induction l with
  | nil => rfl
  | cons a t ih =>
    simp only [List.map, List.lookup, hf a]
    cases h : k == a.1 <;> simp [h, ih]

theorem mem_values_of_lookup (l : List (String × List ℝ)) (k : String)
    (v : List ℝ) (h : l.lookup k = some v) : ∃ k', (k', v) ∈ l := by
  induction l with
  | nil => cases h
  | cons a t ih =>
    rw [List.lookup] at h
    cases hk : k == a.1 with
    | true =>
      rw [hk] at h
      cases h
      exact ⟨a.1, List.mem_cons_self a t⟩
    | false =>
      rw [hk] at h
      obtain ⟨k', hk'⟩ := ih h
      exact ⟨k', List.mem_cons_of_mem _ hk'⟩

theorem get_selected_ok_of_valid (st : RegistryState) (h : validState st) :
    ∃ c, get_selected_house_curve st = .ok c ∧ c.length = 31 := by
  obtain ⟨hsel, hh, hc⟩ := h
  unfold get_selected_house_curve
  cases hhl : st.house.lookup st.selected with
  | some c =>
    obtain ⟨k', hmem⟩ := mem_values_of_lookup _ _ _ hhl
    exact ⟨c, rfl, hh (k', c) hmem⟩
  | none =>
    cases hcl : st.custom.lookup st.selected with
    | some c =>
      obtain ⟨k', hmem⟩ := mem_values_of_lookup _ _ _ hcl
      exact ⟨c, rfl, hc (k', c) hmem⟩
    | none =>
      rw [hhl, hcl] at hsel
      simp at hsel

theorem validState_runOp (st : RegistryState) (op : RegistryOp)
    (h : validState st) : validState (runOp st op) := by
  obtain ⟨hsel, hh, hc⟩ := h
  cases op with
  | setSelected name =>
    by_cases hex : (st.house.lookup name).isSome ∨ (st.custom.lookup name).isSome
    · simp only [runOp, set_selected_house_curve, if_pos hex]
      exact ⟨hex, hh, hc⟩
    · simp only [runOp, set_selected_house_curve, if_neg hex]
      exact ⟨hsel, hh, hc⟩
  | updatePoint idx name value =>
    cases hlk : st.custom.lookup name with
    | none => simp only [runOp, update_custom_curve, hlk]; exact ⟨hsel, hh, hc⟩
    | some arr =>
      by_cases hrange : idx < -(arr.length : ℤ) ∨ (arr.length : ℤ) ≤ idx
      · simp only [runOp, update_custom_curve, hlk, if_pos hrange]
        exact ⟨hsel, hh, hc⟩
      · simp only [runOp, update_custom_curve, hlk, if_neg hrange]
        refine ⟨?_, hh, ?_⟩
        · rcases hsel with hs | hs
          · exact Or.inl hs
          · refine Or.inr ?_
            rw [lookup_isSome_map]
            · exact hs
            · intro p; by_cases hp : p.1 = name <;> simp [hp]
        · intro p hp
          obtain ⟨q, hq, hpq⟩ := List.mem_map.mp hp
          subst hpq
          by_cases hqn : q.1 = name
          · simp only [hqn, if_pos rfl]
            simpa using hc q hq
          · simp only [if_neg hqn]
            exact hc q hq
  | loadFromSelected name =>
    by_cases hnone : (st.custom.lookup name).isNone
    · simp only [runOp, load_custom_curve, if_pos hnone]
      exact ⟨hsel, hh, hc⟩
    · cases hget : get_selected_house_curve st with
      | error e =>
        simp only [runOp, load_custom_curve, if_neg hnone, hget]
        exact ⟨hsel, hh, hc⟩
      | ok cur =>
        have hlen : cur.length = 31 := by
          obtain ⟨c', hc', hl'⟩ := get_selected_ok_of_valid st ⟨hsel, hh, hc⟩
          rw [hget] at hc'
          cases hc'
          exact hl'
        simp only [runOp, load_custom_curve, if_neg hnone, hget]
        refine ⟨?_, hh, ?_⟩
        · rcases hsel with hs | hs
          · exact Or.inl hs
          · refine Or.inr ?_
            rw [lookup_isSome_map]
            · exact hs
            · intro p; by_cases hp : p.1 = name <;> simp [hp]
        · intro p hp
          obtain ⟨q, hq, hpq⟩ := List.mem_map.mp hp
          subst hpq
          by_cases hqn : q.1 = name
          · simp only [hqn, if_pos rfl]
            exact hlen
          · simp only [if_neg hqn]
            exact hc q hq
  | resetCustom =>
    refine ⟨?_, hh, ?_⟩
    · rcases hsel with hs | hs
      · exact Or.inl hs
      · refine Or.inr ?_
        show (((st.custom.map (fun p => (p.1, p.2.map (fun _ => (0 : ℝ))))).lookup st.selected).isSome)
        rw [lookup_map_value]
        simpa using hs
    · intro p hp
      obtain ⟨q, hq, hpq⟩ := List.mem_map.mp hp
      subst hpq
      simpa using hc q hq

theorem validState_foldl (st : RegistryState) (h : validState st)
    (ops : List RegistryOp) : validState (ops.foldl runOp st) := by
  induction ops generalizing st with
  | nil => exact h
  | cons op rest ih => exact ih (runOp st op) (validState_runOp st op h)

theorem validState_initial : validState initialState := by
  refine ⟨Or.inl (by decide), ?_, ?_⟩ <;> decide

theorem bw_lp_mag_nonneg (f f_c : ℝ) (s : ℤ) : 0 ≤ butterworth_lp_mag f f_c s := by
  unfold butterworth_lp_mag
  positivity

theorem bw_hp_mag_nonneg (f f_c : ℝ) (s : ℤ) : 0 ≤ butterworth_hp_mag f f_c s := by
  unfold butterworth_hp_mag
  positivity

theorem bw_lp_mag_anti (f_c f1 f2 : ℝ) (s : ℤ) (hfc : 0 < f_c)
    (h1 : 0 < f1) (h12 : f1 ≤ f2) :
    butterworth_lp_mag f2 f_c s ≤ butterworth_lp_mag f1 f_c s := by
  unfold butterworth_lp_mag
  have ha : (0 : ℝ) ≤ f1 / f_c := by positivity
  have hdiv : f1 / f_c ≤ f2 / f_c := by gcongr
  have hpow := pow_le_pow_left₀ ha hdiv (2 * max 1 (Int.fdiv s 6)).toNat
  have hpos : 0 < Real.sqrt (1 + (f1 / f_c) ^ (2 * max 1 (Int.fdiv s 6)).toNat) :=
    Real.sqrt_pos.mpr (by positivity)
  exact one_div_le_one_div_of_le hpos (Real.sqrt_le_sqrt (by linarith))

theorem bw_hp_mag_mono (f_c f1 f2 : ℝ) (s : ℤ) (hfc : 0 < f_c)
    (h1 : 0 < f1) (h12 : f1 ≤ f2) :
    butterworth_hp_mag f1 f_c s ≤ butterworth_hp_mag f2 f_c s := by
  unfold butterworth_hp_mag
  have h2 : 0 < f2 := lt_of_lt_of_le h1 h12
  have ha : (0 : ℝ) ≤ f_c / f2 := by positivity
  have hdiv : f_c / f2 ≤ f_c / f1 := by gcongr
  have hpow := pow_le_pow_left₀ ha hdiv (2 * max 1 (Int.fdiv s 6)).toNat
  have hpos : 0 < Real.sqrt (1 + (f_c / f2) ^ (2 * max 1 (Int.fdiv s 6)).toNat) :=
    Real.sqrt_pos.mpr (by positivity)
  exact one_div_le_one_div_of_le hpos (Real.sqrt_le_sqrt (by linarith))

theorem apply_hp_filter_unknown (curve freq : List ℝ) (c : ℚ) (ft : String)
    (s : ℤ) (hft : ft ∉ FILTER_TYPES) (hc : 0 < c) :
    apply_hp_filter curve freq c ft s = .error (.invalidFilterFamily ft) := by
  simp only [FILTER_TYPES, List.mem_cons, List.not_mem_nil, or_false, not_or] at hft
  obtain ⟨h0, h1, h2, h3, h4⟩ := hft
  simp [apply_hp_filter, filter_response, h0, h1, h2, h3, h4, not_le.mpr hc]

theorem apply_lp_filter_unknown (curve freq : List ℝ) (c : ℚ) (ft : String)
    (s : ℤ) (hft : ft ∉ FILTER_TYPES) (hc : 0 < c) :
    apply_lp_filter curve freq c ft s = .error (.invalidFilterFamily ft) := by
  simp only [FILTER_TYPES, List.mem_cons, List.not_mem_nil, or_false, not_or] at hft
  obtain ⟨h0, h1, h2, h3, h4⟩ := hft
  simp [apply_lp_filter, filter_response, h0, h1, h2, h3, h4, not_le.mpr hc]

@[simp]
theorem except_bind_ok {α β : Type} (a : α) (f : α → Except CurveError β) :
    (Except.ok a : Except CurveError α) >>= f = f a := rfl

@[simp]
theorem except_bind_error {α β : Type} (e : CurveError) (f : α → Except CurveError β) :
    (Except.error e : Except CurveError α) >>= f = Except.error e := rfl

@[simp]
theorem except_pure_eq_ok {α : Type} (a : α) :
    (pure a : Except CurveError α) = Except.ok a := rfl

@[simp]
theorem except_bind_pure {α : Type} (x : Except CurveError α) :
    (x >>= fun a => Except.ok a) = x := by
  cases x <;> rfl

/-- Claim C1: for every registry state whose selected baseline resolves, and
for all slope and cutoff values, `generate_target_curve` called with two
`FilterConfig` values whose family is `'None'` returns the baseline exactly,
element for element. -/
theorem generate_target_curve_both_none_identity (st : RegistryState)
    (hp_cfg lp_cfg : FilterConfig) (baseline : List ℝ)
    (hb : get_selected_house_curve st = .ok baseline)
    (hhp : hp_cfg.filter_type = "None") (hlp : lp_cfg.filter_type = "None") :
    generate_target_curve st hp_cfg lp_cfg = .ok baseline := by
  simp [generate_target_curve, hb, hhp, hlp]

/-- Claim C1, witnessed at the initial registry state: with both stages set
to family `'None'`, the generator returns the default house curve. -/
theorem generate_target_curve_both_none_identity_witness :
    generate_target_curve initialState ⟨"None", 24, 100⟩ ⟨"None", 12, 500⟩ =
      .ok defaultHouseCurve :=
  generate_target_curve_both_none_identity initialState ⟨"None", 24, 100⟩
    ⟨"None", 12, 500⟩ defaultHouseCurve rfl rfl rfl

/-- Claim C2, counterexample: constructing a `FilterConfig` whose family
string is the unrecognized `"Gaussian"` does not fail — the constructor
performs no validation and stores the fields as given, contradicting the
claim that construction fails with `InvalidFilterFamily`. -/
theorem mkFilterConfig_unrecognized_succeeds :
    mkFilterConfig "Gaussian" 12 100 = .ok ⟨"Gaussian", 12, 100⟩ := rfl

/-- Claim C2 amended: constructing a `FilterConfig` never fails — any family
string is accepted and family, slope and cutoff are stored exactly as given,
with no validation at construction; an unrecognized family is rejected only
at apply time, with `InvalidFilterFamily`, when its stage is actually
applied (cutoff > 0). -/
theorem filterConfig_construction_no_validation :
    (∀ (ft : String) (s : ℤ) (c : ℚ), mkFilterConfig ft s c = .ok ⟨ft, s, c⟩)
    ∧ (∀ (curve freq : List ℝ) (c : ℚ) (ft : String) (s : ℤ),
        ft ∉ FILTER_TYPES → 0 < c →
        apply_hp_filter curve freq c ft s = .error (.invalidFilterFamily ft)) := by
  exact ⟨fun ft s c => rfl, apply_hp_filter_unknown⟩

/-- Claim C2 amended, witnessed: a recognized and an unrecognized family
both construct successfully; the unrecognized one errors at apply time. -/
theorem filterConfig_construction_no_validation_witness :
    mkFilterConfig "Butterworth" 24 100 = .ok ⟨"Butterworth", 24, 100⟩
    ∧ apply_hp_filter [0] [20] 100 "Gaussian" 24 =
        .error (.invalidFilterFamily "Gaussian") :=
  ⟨filterConfig_construction_no_validation.1 "Butterworth" 24 100,
   filterConfig_construction_no_validation.2 [0] [20] 100 "Gaussian" 24
     (by decide) (by decide)⟩

/-- Claim C3, counterexample: `update_custom_curve` with index `-1` — which
is outside `[0, 31)` and so should fail with `IndexOutOfRange` per the
claim — instead succeeds and overwrites sample 30 of `Custom1` (numpy
negative-index wrap-around). -/
theorem update_custom_curve_negative_index_wraps :
    update_custom_curve (-1) "Custom1" (5 : ℝ) initialState =
      .ok { initialState with
              custom := [("Custom1", (List.replicate 31 (0 : ℝ)).set 30 5),
                         ("Custom2", List.replicate 31 0),
                         ("Custom3", List.replicate 31 0)] } := rfl

/-- Claim C3 amended: `update_custom_curve` fails with `NotCustom` when the
name is not a custom curve (in particular for every predefined curve); it
fails with `IndexOutOfRange` only when the index is outside `[-31, 31)`
(31 = stored curve length); an index in `[0, 31)` overwrites exactly that
sample of the named custom curve in place; a negative index in `[-31, 0)`
wraps Python-style and overwrites sample `index + 31`.  In every successful
case all other samples and all other curves are unchanged. -/
theorem update_custom_curve_characterization :
    (∀ (st : RegistryState) (idx : ℤ) (name : String) (v : ℝ),
        st.custom.lookup name = none →
        update_custom_curve idx name v st = .error (.notCustom name))
    ∧ (∀ (st : RegistryState) (idx : ℤ) (name : String) (v : ℝ) (arr : List ℝ),
        st.custom.lookup name = some arr →
        (idx < -(arr.length : ℤ) ∨ (arr.length : ℤ) ≤ idx) →
        update_custom_curve idx name v st = .error (.indexOutOfRange idx))
    ∧ (∀ (st : RegistryState) (idx : ℤ) (name : String) (v : ℝ) (arr : List ℝ),
        st.custom.lookup name = some arr →
        0 ≤ idx → idx < (arr.length : ℤ) →
        update_custom_curve idx name v st =
          .ok { st with custom :=
            st.custom.map (fun p => if p.1 = name then (p.1, p.2.set idx.toNat v) else p) })
    ∧ (∀ (st : RegistryState) (idx : ℤ) (name : String) (v : ℝ) (arr : List ℝ),
        st.custom.lookup name = some arr →
        -(arr.length : ℤ) ≤ idx → idx < 0 →
        update_custom_curve idx name v st =
          .ok { st with custom :=
            (st.custom.map (fun p =>
              if p.1 = name then (p.1, p.2.set (idx + arr.length).toNat v) else p)) }) := by
  refine ⟨?_, ?_, ?_, ?_⟩
  · intro st idx name v h
    simp [update_custom_curve, h]
  · intro st idx name v arr hlk hrange
    simp [update_custom_curve, hlk, hrange]
  · intro st idx name v arr hlk h0 hlt
    have hnr : ¬(idx < -(arr.length : ℤ) ∨ (arr.length : ℤ) ≤ idx) := by omega
    have hnn : ¬ idx < 0 := by omega
    simp [update_custom_curve, hlk, hnr, hnn]
  · intro st idx name v arr hlk hge hneg
    have hnr : ¬(idx < -(arr.length : ℤ) ∨ (arr.length : ℤ) ≤ idx) := by omega
    simp [update_custom_curve, hlk, hnr, hneg]

/-- Claim C3 amended, witnessed at the initial state: a predefined name
fails with `NotCustom`, index 31 fails with `IndexOutOfRange`, index 3
overwrites sample 3, and index `-31` wraps to sample 0. -/
theorem update_custom_curve_characterization_witness :
    update_custom_curve 0 "House Curve" 1 initialState =
        .error (.notCustom "House Curve")
    ∧ update_custom_curve 31 "Custom1" 1 initialState =
        .error (.indexOutOfRange 31)
    ∧ update_custom_curve 3 "Custom1" 1 initialState =
        .ok { initialState with custom :=
          (initialState.custom.map
            (fun p => if p.1 = "Custom1" then (p.1, p.2.set (3 : ℤ).toNat 1) else p)) }
    ∧ update_custom_curve (-31) "Custom1" 1 initialState =
        .ok { initialState with custom :=
          (initialState.custom.map
            (fun p =>
              if p.1 = "Custom1" then
                (p.1, p.2.set ((-31 : ℤ) + ((List.replicate 31 (0 : ℝ)).length : ℤ)).toNat 1)
              else p)) } :=
  ⟨update_custom_curve_characterization.1 initialState 0 "House Curve" 1 rfl,
   update_custom_curve_characterization.2.1 initialState 31 "Custom1" 1
     (List.replicate 31 0) rfl (Or.inr (by decide)),
   update_custom_curve_characterization.2.2.1 initialState 3 "Custom1" 1
     (List.replicate 31 0) rfl (by decide) (by decide),
   update_custom_curve_characterization.2.2.2 initialState (-31) "Custom1" 1
     (List.replicate 31 0) rfl (by decide) (by decide)⟩

/-- Claim C5: for every cutoff `f_c > 0` and every slope that is a positive
multiple of 6, the Butterworth low-pass magnitude at `f = f_c` equals
exactly `1 / √2`, independent of the derived order. -/
theorem butterworth_lp_mag_at_cutoff (f_c : ℝ) (s k : ℤ)
    (hfc : 0 < f_c) (_hk : 1 ≤ k) (_hs : s = 6 * k) :
    butterworth_lp_mag f_c f_c s = 1 / Real.sqrt 2 := by
  simp only [butterworth_lp_mag]
  rw [div_self hfc.ne', one_pow]
  norm_num

/-- Claim C5, witnessed at `f_c = 100`, slope 12. -/
theorem butterworth_lp_mag_at_cutoff_witness :
    butterworth_lp_mag 100 100 12 = 1 / Real.sqrt 2 :=
  butterworth_lp_mag_at_cutoff 100 12 2 (by norm_num) (by decide) (by decide)

/-- Claim C6: a filter stage whose cutoff is ≤ 0 is a no-op for every
baseline, family and slope — both stage functions return the input curve
unchanged, and `generate_target_curve` with such a stage produces the same
result as with that stage's family set to `'None'`. -/
theorem cutoff_nonpos_stage_noop :
    (∀ (curve freq : List ℝ) (c : ℚ) (ft : String) (s : ℤ), c ≤ 0 →
        apply_hp_filter curve freq c ft s = .ok curve)
    ∧ (∀ (curve freq : List ℝ) (c : ℚ) (ft : String) (s : ℤ), c ≤ 0 →
        apply_lp_filter curve freq c ft s = .ok curve)
    ∧ (∀ (st : RegistryState) (hp_cfg lp_cfg : FilterConfig), hp_cfg.cutoff ≤ 0 →
        generate_target_curve st hp_cfg lp_cfg =
          generate_target_curve st ⟨"None", hp_cfg.slope, hp_cfg.cutoff⟩ lp_cfg)
    ∧ (∀ (st : RegistryState) (hp_cfg lp_cfg : FilterConfig), lp_cfg.cutoff ≤ 0 →
        generate_target_curve st hp_cfg lp_cfg =
          generate_target_curve st hp_cfg ⟨"None", lp_cfg.slope, lp_cfg.cutoff⟩) := by
  have hp_noop : ∀ (curve freq : List ℝ) (c : ℚ) (ft : String) (s : ℤ), c ≤ 0 →
      apply_hp_filter curve freq c ft s = .ok curve := by
    intro curve freq c ft s hc
    unfold apply_hp_filter
    rw [if_pos (Or.inr hc)]
  have lp_noop : ∀ (curve freq : List ℝ) (c : ℚ) (ft : String) (s : ℤ), c ≤ 0 →
      apply_lp_filter curve freq c ft s = .ok curve := by
    intro curve freq c ft s hc
    unfold apply_lp_filter
    rw [if_pos (Or.inr hc)]
  refine ⟨hp_noop, lp_noop, ?_, ?_⟩
  · intro st hp_cfg lp_cfg hc
    obtain ⟨ft, s, c⟩ := hp_cfg
    by_cases hft : ft = "None"
    · subst hft; rfl
    · cases hsel : get_selected_house_curve st with
      | error e => simp [generate_target_curve, hsel]
      | ok baseline =>
        simp [generate_target_curve, hsel, hft, hp_noop _ FREQUENCIES c ft s hc]
  · intro st hp_cfg lp_cfg hc
    obtain ⟨ft, s, c⟩ := lp_cfg
    by_cases hft : ft = "None"
    · subst hft; rfl
    · cases hsel : get_selected_house_curve st with
      | error e => simp [generate_target_curve, hsel]
      | ok baseline =>
        simp [generate_target_curve, hsel, hft,
              fun curve => lp_noop curve FREQUENCIES c ft s hc]

/-- Claim C6, witnessed: zero and negative cutoffs pass the curve through,
for the stage functions and for the generator. -/
theorem cutoff_nonpos_stage_noop_witness :
    apply_hp_filter [1, 2] FREQUENCIES 0 "Butterworth" 24 = .ok [1, 2]
    ∧ apply_lp_filter [1, 2] FREQUENCIES (-5) "Chebyshev" 24 = .ok [1, 2]
    ∧ generate_target_curve initialState ⟨"Butterworth", 24, 0⟩ ⟨"None", 24, 100⟩ =
        generate_target_curve initialState ⟨"None", 24, 0⟩ ⟨"None", 24, 100⟩
    ∧ generate_target_curve initialState ⟨"None", 24, 100⟩ ⟨"Linkwitz-Riley", 24, -1⟩ =
        generate_target_curve initialState ⟨"None", 24, 100⟩ ⟨"None", 24, -1⟩ :=
  ⟨cutoff_nonpos_stage_noop.1 [1, 2] FREQUENCIES 0 "Butterworth" 24 (by decide),
   cutoff_nonpos_stage_noop.2.1 [1, 2] FREQUENCIES (-5) "Chebyshev" 24 (by decide),
   cutoff_nonpos_stage_noop.2.2.1 initialState ⟨"Butterworth", 24, 0⟩
     ⟨"None", 24, 100⟩ (by decide),
   cutoff_nonpos_stage_noop.2.2.2 initialState ⟨"None", 24, 100⟩
     ⟨"Linkwitz-Riley", 24, -1⟩ (by decide)⟩

/-- Claim C4: for every frequency vector, every cutoff `f_c > 0`, every
slope `s` and both pass directions, the Linkwitz-Riley magnitude equals the
square of the Butterworth magnitude of the same direction at the same
frequencies and cutoff with slope `6 · n`, where `n = max(1, ⌊s/12⌋)`. -/
theorem linkwitz_riley_is_squared_butterworth (freqs : List ℝ) (f_c : ℝ)
    (s : ℤ) (_hfc : 0 < f_c) :
    (freqs.map (fun f => linkwitz_riley_lp_mag f f_c s) =
      freqs.map (fun f => butterworth_lp_mag f f_c (6 * max 1 (Int.fdiv s 12)) ^ 2))
    ∧ (freqs.map (fun f => linkwitz_riley_hp_mag f f_c s) =
      freqs.map (fun f => butterworth_hp_mag f f_c (6 * max 1 (Int.fdiv s 12)) ^ 2)) := by
  constructor
  · have h : (fun f => linkwitz_riley_lp_mag f f_c s) =
        (fun f => butterworth_lp_mag f f_c (6 * max 1 (Int.fdiv s 12)) ^ 2) := by
      funext f
      simp only [linkwitz_riley_lp_mag]
      rw [mul_comm (max 1 (Int.fdiv s 12)) 6]
    rw [h]
  · have h : (fun f => linkwitz_riley_hp_mag f f_c s) =
        (fun f => butterworth_hp_mag f f_c (6 * max 1 (Int.fdiv s 12)) ^ 2) := by
      funext f
      simp only [linkwitz_riley_hp_mag]
      rw [mul_comm (max 1 (Int.fdiv s 12)) 6]
    rw [h]

/-- Claim C4, witnessed on the grid endpoints at cutoff 100 Hz, slope 24. -/
theorem linkwitz_riley_is_squared_butterworth_witness :
    ([20, 1000, 20000].map (fun f => linkwitz_riley_lp_mag f 100 24) =
      [20, 1000, 20000].map (fun f => butterworth_lp_mag f 100 (6 * max 1 (Int.fdiv 24 12)) ^ 2))
    ∧ ([20, 1000, 20000].map (fun f => linkwitz_riley_hp_mag f 100 24) =
      [20, 1000, 20000].map (fun f => butterworth_hp_mag f 100 (6 * max 1 (Int.fdiv 24 12)) ^ 2)) :=
  linkwitz_riley_is_squared_butterworth [20, 1000, 20000] 100 24 (by norm_num)

/-- Claim C7, counterexample: a `FilterConfig` with the unrecognized family
`"Foo"` but cutoff 0 does NOT surface `InvalidFilterFamily` from
`generate_target_curve` — the cutoff ≤ 0 pass-through fires before the
family dispatch, and the baseline is returned unchanged. -/
theorem generate_unknown_family_nonpos_cutoff_ok :
    generate_target_curve initialState ⟨"Foo", 12, 0⟩ ⟨"None", 12, 0⟩ =
      .ok defaultHouseCurve := rfl

/-- Claim C7 amended: for every `FilterConfig` whose family is neither the
`'None'` sentinel nor one of the four recognized families, and whose cutoff
is positive, `generate_target_curve` (with the selected baseline resolving
and, for the low-pass case, the high-pass stage disabled) surfaces an
`InvalidFilterFamily` error propagated from the filter response library. -/
theorem generate_unknown_family_invalid (st : RegistryState)
    (hp_cfg lp_cfg : FilterConfig) (baseline : List ℝ)
    (hb : get_selected_house_curve st = .ok baseline) :
    (hp_cfg.filter_type ∉ FILTER_TYPES → 0 < hp_cfg.cutoff →
      generate_target_curve st hp_cfg lp_cfg =
        .error (.invalidFilterFamily hp_cfg.filter_type))
    ∧ (hp_cfg.filter_type = "None" → lp_cfg.filter_type ∉ FILTER_TYPES →
        0 < lp_cfg.cutoff →
      generate_target_curve st hp_cfg lp_cfg =
        .error (.invalidFilterFamily lp_cfg.filter_type)) := by
  constructor
  · intro hft hc
    have hne : hp_cfg.filter_type ≠ "None" := by
      intro h
      exact hft (by rw [h]; decide)
    simp [generate_target_curve, hb, hne,
          apply_hp_filter_unknown baseline FREQUENCIES hp_cfg.cutoff
            hp_cfg.filter_type hp_cfg.slope hft hc]
  · intro hhp hft hc
    have hne : lp_cfg.filter_type ≠ "None" := by
      intro h
      exact hft (by rw [h]; decide)
    simp [generate_target_curve, hb, hhp, hne,
          apply_lp_filter_unknown baseline FREQUENCIES lp_cfg.cutoff
            lp_cfg.filter_type lp_cfg.slope hft hc]

/-- Claim C7 amended, witnessed: unknown families with positive cutoff in
either stage surface `InvalidFilterFamily` from the generator. -/
theorem generate_unknown_family_invalid_witness :
    generate_target_curve initialState ⟨"Gaussian", 24, 100⟩ ⟨"None", 24, 100⟩ =
      .error (.invalidFilterFamily "Gaussian")
    ∧ generate_target_curve initialState ⟨"None", 24, 100⟩ ⟨"Elliptic", 24, 100⟩ =
      .error (.invalidFilterFamily "Elliptic") :=
  ⟨(generate_unknown_family_invalid initialState ⟨"Gaussian", 24, 100⟩
      ⟨"None", 24, 100⟩ defaultHouseCurve rfl).1 (by decide) (by decide),
   (generate_unknown_family_invalid initialState ⟨"None", 24, 100⟩
      ⟨"Elliptic", 24, 100⟩ defaultHouseCurve rfl).2 rfl (by decide) (by decide)⟩

/-- Claim C8: for Butterworth and Linkwitz-Riley filters with cutoff
`f_c > 0` and any slope, the low-pass magnitude is non-increasing in
frequency for `f_c ≤ f1 ≤ f2`, and the high-pass magnitude is
non-increasing as frequency decreases for `0 < f1 ≤ f2 ≤ f_c`. -/
theorem filter_monotone_attenuation (f_c f1 f2 : ℝ) (s : ℤ) (hfc : 0 < f_c) :
    (f_c ≤ f1 → f1 ≤ f2 →
      butterworth_lp_mag f2 f_c s ≤ butterworth_lp_mag f1 f_c s
      ∧ linkwitz_riley_lp_mag f2 f_c s ≤ linkwitz_riley_lp_mag f1 f_c s)
    ∧ (0 < f1 → f1 ≤ f2 → f2 ≤ f_c →
      butterworth_hp_mag f1 f_c s ≤ butterworth_hp_mag f2 f_c s
      ∧ linkwitz_riley_hp_mag f1 f_c s ≤ linkwitz_riley_hp_mag f2 f_c s) := by
  constructor
  · intro hlo h12
    have h1 : 0 < f1 := lt_of_lt_of_le hfc hlo
    refine ⟨bw_lp_mag_anti f_c f1 f2 s hfc h1 h12, ?_⟩
    simp only [linkwitz_riley_lp_mag]
    exact pow_le_pow_left₀ (bw_lp_mag_nonneg f2 f_c _)
      (bw_lp_mag_anti f_c f1 f2 _ hfc h1 h12) 2
  · intro h1 h12 _hhi
    refine ⟨bw_hp_mag_mono f_c f1 f2 s hfc h1 h12, ?_⟩
    simp only [linkwitz_riley_hp_mag]
    exact pow_le_pow_left₀ (bw_hp_mag_nonneg f1 f_c _)
      (bw_hp_mag_mono f_c f1 f2 _ hfc h1 h12) 2

/-- Claim C8, witnessed above cutoff (low-pass) and below cutoff
(high-pass) at `f_c = 100`, slope 24. -/
theorem filter_monotone_attenuation_witness :
    (butterworth_lp_mag 400 100 24 ≤ butterworth_lp_mag 200 100 24
      ∧ linkwitz_riley_lp_mag 400 100 24 ≤ linkwitz_riley_lp_mag 200 100 24)
    ∧ (butterworth_hp_mag 25 100 24 ≤ butterworth_hp_mag 50 100 24
      ∧ linkwitz_riley_hp_mag 25 100 24 ≤ linkwitz_riley_hp_mag 50 100 24) :=
  ⟨(filter_monotone_attenuation 100 200 400 24 (by norm_num)).1
      (by norm_num) (by norm_num),
   (filter_monotone_attenuation 100 25 50 24 (by norm_num)).2
      (by norm_num) (by norm_num) (by norm_num)⟩

/-- Claim C9: `reset_custom_curves` sets every sample of every custom curve
to exactly 0.0 dB and changes nothing else — the predefined curves keep all
their values, the selection pointer keeps its value, and afterwards the
selected-curve accessor on any custom selection yields all zeros. -/
theorem reset_custom_curves_spec (st : RegistryState) :
    (reset_custom_curves st).house = st.house
    ∧ (reset_custom_curves st).selected = st.selected
    ∧ (∀ name arr, st.custom.lookup name = some arr →
        (reset_custom_curves st).custom.lookup name =
          some (arr.map (fun _ => (0 : ℝ))))
    ∧ ((reset_custom_curves st).custom.map Prod.fst = st.custom.map Prod.fst)
    ∧ (∀ arr, st.house.lookup st.selected = none →
        st.custom.lookup st.selected = some arr →
        get_selected_house_curve (reset_custom_curves st) =
          .ok (arr.map (fun _ => (0 : ℝ)))) := by
  have hlookup : ∀ (name : String) (arr : List ℝ), st.custom.lookup name = some arr →
      (reset_custom_curves st).custom.lookup name =
        some (arr.map (fun _ => (0 : ℝ))) := by
    intro name arr h
    show ((st.custom.map (fun p => (p.1, p.2.map (fun _ => (0 : ℝ))))).lookup name) = _
    rw [lookup_map_value, h]
    rfl
  refine ⟨rfl, rfl, hlookup, ?_, ?_⟩
  · simp [reset_custom_curves]
  · intro arr hh hc
    have hcu := hlookup st.selected arr hc
    unfold get_selected_house_curve
    rw [show (reset_custom_curves st).house.lookup (reset_custom_curves st).selected =
          (none : Option (List ℝ)) from hh,
        show (reset_custom_curves st).custom.lookup (reset_custom_curves st).selected =
          some (arr.map (fun _ => (0 : ℝ))) from hcu]

/-- Claim C9, witnessed with the selection pointing at `Custom1`: after the
reset, the selected curve is all zeros. -/
theorem reset_custom_curves_spec_witness :
    get_selected_house_curve
        (reset_custom_curves { initialState with selected := "Custom1" }) =
      .ok ((List.replicate 31 (0 : ℝ)).map (fun _ => (0 : ℝ))) :=
  (reset_custom_curves_spec { initialState with selected := "Custom1" }).2.2.2.2
    (List.replicate 31 0) rfl rfl

/-- Claim C10: starting from the initial registry state, after any sequence
of registry operations (including failing ones) the selection pointer names
an existing curve, so the selected-curve accessor always succeeds and
returns a 31-element curve; selecting a name in neither subset fails with
`UnknownCurveName` and leaves the state (hence the pointer) unchanged. -/
theorem registry_selection_invariant (ops : List RegistryOp) :
    (∃ c, get_selected_house_curve (ops.foldl runOp initialState) = .ok c
          ∧ c.length = 31)
    ∧ (∀ name : String,
        (ops.foldl runOp initialState).house.lookup name = none →
        (ops.foldl runOp initialState).custom.lookup name = none →
        set_selected_house_curve name (ops.foldl runOp initialState) =
            .error (.unknownCurveName name)
        ∧ runOp (ops.foldl runOp initialState) (.setSelected name) =
            ops.foldl runOp initialState) := by
  refine ⟨get_selected_ok_of_valid _ (validState_foldl _ validState_initial ops), ?_⟩
  intro name h1 h2
  have hcond : ¬(((ops.foldl runOp initialState).house.lookup name).isSome ∨
      ((ops.foldl runOp initialState).custom.lookup name).isSome) := by
    rw [h1, h2]
    simp
  have herr : set_selected_house_curve name (ops.foldl runOp initialState) =
      .error (.unknownCurveName name) := by
    unfold set_selected_house_curve
    rw [if_neg hcond]
  refine ⟨herr, ?_⟩
  simp only [runOp]
  rw [herr]

/-- Claim C10, witnessed after a point edit and a reselection: selecting the
unknown name `"Nope"` fails with `UnknownCurveName` and leaves the state
unchanged. -/
theorem registry_selection_invariant_witness :
    set_selected_house_curve "Nope"
        ([RegistryOp.updatePoint 3 "Custom1" 7,
          RegistryOp.setSelected "Custom2"].foldl runOp initialState) =
      .error (.unknownCurveName "Nope")
    ∧ runOp ([RegistryOp.updatePoint 3 "Custom1" 7,
          RegistryOp.setSelected "Custom2"].foldl runOp initialState)
        (.setSelected "Nope") =
      [RegistryOp.updatePoint 3 "Custom1" 7,
          RegistryOp.setSelected "Custom2"].foldl runOp initialState :=
  (registry_selection_invariant
    [RegistryOp.updatePoint 3 "Custom1" 7, RegistryOp.setSelected "Custom2"]).2
    "Nope" rfl rfl

end TuningCompanion
